import Mathlib

/-!
Shallow embedding of the EzDawg signed-request authentication and SIP
(systematic investment plan) service layers.

Sources embedded:
* `signature-verify` (verifySignature, createSignatureMessage)
* `db.service` / `sip.service` (SIP persistence and business rules)
* `route.ts` (HTTP PATCH handler for status updates)
* `agent-service.ts` (agent key provisioning and approval)
* `agent-storage` (localStorage-backed key store)

External effectful calls (viem address recovery, the Hyperliquid info and
exchange clients, Supabase) are modelled as injected functions returning
`Option`/`Except`, where a thrown exception is the `none`/`.error` case.
`Date.now()` is an explicit `now : Int` parameter. JS `parseInt` on a digit
string is modelled exactly on `Nat` (exact for the magnitudes involved here).
-/

namespace EzDawg

/-! ## Signature verification (`verifySignature`) -/

/-- JS `\d` digit class. -/
def isJsDigit (c : Char) : Bool := '0' ≤ c && c ≤ '9'

/-- JS `\s` whitespace class (the code points that can occur in these
ASCII-built messages, plus NBSP and BOM). -/
def isJsSpace (c : Char) : Bool :=
  c = ' ' || c = '\t' || c = '\n' || c = '\r' || c = '\x0b' || c = '\x0c' ||
  c = ' ' || c = '﻿'

/-- Value of a decimal digit string, as `parseInt(ds, 10)` computes it. -/
def digitsToNat (ds : List Char) : Nat :=
  ds.foldl (fun acc c => 10 * acc + (c.toNat - '0'.toNat)) 0

/-- Attempt to match the regex `Nonce:\s*(\d+)` anchored at the head of `l`,
returning the parsed capture group on success. `\s*` is greedy, and since
`\s` and `\d` are disjoint no backtracking of `\s*` can create a match this
direct translation misses. -/
def nonceAt (l : List Char) : Option Nat :=
  if l.take 6 = "Nonce:".data then
    let ds := ((l.drop 6).dropWhile isJsSpace).takeWhile isJsDigit
    if ds.isEmpty then none else some (digitsToNat ds)
  else none

/-- Leftmost match of `Nonce:\s*(\d+)`, as `message.match(/Nonce:\s*(\d+)/)`
(no global flag) scans for it. -/
def findNonce : List Char → Option Nat
  | [] => none
  | c :: cs =>
    match nonceAt (c :: cs) with
    | some n => some n
    | none => findNonce cs

/-- `parseInt(message.match(/Nonce:\s*(\d+)/)[1], 10)` when the match
exists. -/
def extractNonce (m : String) : Option Nat := findNonce m.data

structure VerifySignatureResult where
  valid : Bool
  address : Option String
  error : Option String
deriving DecidableEq, Repr

def SIGNATURE_EXPIRY_MS : Int := 60000

/-- `verifySignature(message, signature)`. `recover` stands for viem's
`recoverMessageAddress`; it returns `none` when the real call throws, which
the surrounding `try/catch` turns into the generic failure result. -/
def verifySignature (recover : String → String → Option String)
    (now : Int) (message signature : String) : VerifySignatureResult :=
  match extractNonce message with
  | none => ⟨false, none, some "Message missing nonce"⟩
  | some nonce =>
    let age : Int := now - (nonce : Int)
    if age > SIGNATURE_EXPIRY_MS then
      ⟨false, none, some "Signature expired"⟩
    else if age < -5000 then
      ⟨false, none, some "Invalid nonce timestamp"⟩
    else
      match recover message signature with
      | some addr => ⟨true, some addr, none⟩
      | none => ⟨false, none, some "Signature verification failed"⟩

/-! ## Data model and database service (`db.service`, schema `sips`) -/

inductive SIPStatus where
  | active
  | paused
  | cancelled
deriving DecidableEq, Repr

structure User where
  id : String
  wallet_address : String
  created_at : String
deriving DecidableEq, Repr

structure SIP where
  id : String
  user_id : String
  asset_name : String
  asset_index : Int
  monthly_amount_usdc : Int
  status : SIPStatus
  created_at : String
  updated_at : String
deriving DecidableEq, Repr

/-- The relational store the Supabase queries act on. -/
structure DB where
  users : List User
  sips : List SIP
deriving DecidableEq, Repr

/-- `getUserByWallet`: upsert on `wallet_address`, returning the row.
`fail` injects a Supabase error (the `error || !data` branch, yielding
`null`). Generated ids are modelled deterministically. -/
def getUserByWallet (fail : Bool) (db : DB) (walletAddress : String) :
    Option User × DB :=
  if fail then (none, db)
  else
    match db.users.find? (fun u => u.wallet_address == walletAddress) with
    | some u => (some u, db)
    | none =>
      let u : User := ⟨"user-" ++ walletAddress, walletAddress, "t0"⟩
      (some u, { db with users := db.users ++ [u] })

/-- `db.service`'s `createSIP`: inserts a row with status `active`. The
`sips` table carries `CHECK (monthly_amount_usdc >= 1000)`, so an insert
below that bound errors out and the function returns `null`; `fail`
injects any other Supabase error. -/
def dbCreateSIP (fail : Bool) (db : DB) (userId assetName : String)
    (assetIndex amount : Int) (nowTs : String) : Option SIP × DB :=
  if fail then (none, db)
  else if amount < 1000 then (none, db)
  else
    let s : SIP := ⟨"sip-" ++ toString db.sips.length, userId, assetName,
      assetIndex, amount, .active, nowTs, nowTs⟩
    (some s, { db with sips := db.sips ++ [s] })

/-- `db.service`'s `updateSIPStatus`: unconditionally overwrites `status`
and `updated_at` on the row matching `sipId` (an update matching zero rows
is still no error). -/
def dbUpdateSIPStatus (fail : Bool) (db : DB) (sipId : String)
    (status : SIPStatus) (nowTs : String) : Bool × DB :=
  if fail then (false, db)
  else
    (true, { db with
      sips := db.sips.map (fun s =>
        if s.id == sipId then { s with status := status, updated_at := nowTs }
        else s) })

/-! ## SIP business service (`sip.service`) -/

structure SIPResult where
  success : Bool
  sip : Option SIP
  message : Option String
  error : Option String
deriving DecidableEq, Repr

structure CreateSIPParams where
  walletAddress : String
  assetName : String
  assetIndex : Int
  monthlyAmountUsdc : Int
deriving DecidableEq, Repr

/-- `sip.service`'s `createSIP`: minimum-amount guard, user resolution,
then insert. -/
def createSIPService (failUser failInsert : Bool) (db : DB)
    (p : CreateSIPParams) (nowTs : String) : SIPResult × DB :=
  if p.monthlyAmountUsdc < 1000 then
    (⟨false, none, none, some "Monthly investment must be at least 1000 USDC"⟩,
      db)
  else
    match getUserByWallet failUser db p.walletAddress with
    | (none, db1) => (⟨false, none, none, some "User not found"⟩, db1)
    | (some u, db1) =>
      match dbCreateSIP failInsert db1 u.id p.assetName p.assetIndex
          p.monthlyAmountUsdc nowTs with
      | (none, db2) => (⟨false, none, none, some "Failed to create SIP"⟩, db2)
      | (some s, db2) =>
        (⟨true, some s, some "SIP created successfully", none⟩, db2)

/-- The word interpolated into the success message:
`SIP ${status === "active" ? "resumed" : status}`. -/
def statusWord : SIPStatus → String
  | .active => "resumed"
  | .paused => "paused"
  | .cancelled => "cancelled"

/-- `sip.service`'s `updateSIPStatus`: delegates to the database update with
no ownership check and no terminal-state guard. -/
def updateSIPStatusService (fail : Bool) (db : DB) (sipId : String)
    (status : SIPStatus) (nowTs : String) : SIPResult × DB :=
  match dbUpdateSIPStatus fail db sipId status nowTs with
  | (false, db1) => (⟨false, none, none, some "Failed to update SIP status"⟩, db1)
  | (true, db1) => (⟨true, none, some ("SIP " ++ statusWord status), none⟩, db1)

/-! ## HTTP PATCH handler (`route.ts`) -/

inductive HttpResponse where
  | ok (result : SIPResult)
  | badRequest (error : String)
  | unauthorized (error : String)
  | serverError (error : String)
deriving DecidableEq, Repr

/-- A parsed PATCH body. A JS-falsy (absent or empty-string) field is the
empty string for the string fields and `none` for `status`. -/
structure PatchBody where
  sipId : String
  status : Option SIPStatus
  message : String
  signature : String
deriving DecidableEq, Repr

/-- The `PATCH /api/sip` handler: field presence check, signature
verification, then the status update. The parameters inside the signed
`message` are never parsed or compared against the body. -/
def PATCH (recover : String → String → Option String) (now : Int)
    (dbFail : Bool) (db : DB) (body : PatchBody) (nowTs : String) :
    HttpResponse × DB :=
  match body.status with
  | none => (.badRequest "Missing required fields", db)
  | some st =>
    if body.sipId = "" ∨ body.message = "" ∨ body.signature = "" then
      (.badRequest "Missing required fields", db)
    else
      let vr := verifySignature recover now body.message body.signature
      if vr.valid then
        match updateSIPStatusService dbFail db body.sipId st nowTs with
        | (r, db1) =>
          if r.success then (.ok r, db1)
          else (.serverError (r.error.getD ""), db1)
      else (.unauthorized (vr.error.getD "Invalid signature"), db)

/-! ## Agent provisioning (`agent-service.ts`, `agent-storage`) -/

structure HlAgent where
  address : String
deriving DecidableEq, Repr

/-- The Hyperliquid info client: `extraAgents` may throw (`.error`), return
a falsy response (`.ok none`), or return the delegate list. -/
structure InfoClient where
  extraAgents : String → Except String (Option (List HlAgent))

/-- `checkAgentApproval(infoClient, userAddress, agentAddress)`. -/
def checkAgentApproval (infoClient : Option InfoClient)
    (userAddress agentAddress : String) : Bool :=
  match infoClient with
  | none => false
  | some c =>
    match c.extraAgents userAddress with
    | .error _ => false
    | .ok none => false
    | .ok (some resp) =>
      (resp.find? (fun a => a.address == agentAddress)).isSome

/-- The Hyperliquid exchange client: `approveAgent` takes the agent address
and a display name and may throw. -/
structure ExchangeClient where
  approveAgent : String → String → Except String Unit

inductive ApproveOutcome where
  | skippedAlreadyApproved
  | approvedOk
  | warnedFailure
deriving DecidableEq, Repr

/-- `approveAgentIfNeeded(exchangeClient, agentAddress, isApproved)`.
`.error` is a thrown exception escaping the function; the inner `try/catch`
around `approveAgent` downgrades an approval failure to a console warning
(`.ok .warnedFailure`). -/
def approveAgentIfNeeded (exchangeClient : Option ExchangeClient)
    (agentAddress : String) (isApproved : Bool) :
    Except String ApproveOutcome :=
  if isApproved then .ok .skippedAlreadyApproved
  else
    match exchangeClient with
    | none => .error "Exchange client not initialized"
    | some c =>
      match c.approveAgent agentAddress "EzDawg Agent" with
      | .ok _ => .ok .approvedOk
      | .error _ => .ok .warnedFailure

/-- The localStorage key/value store backing `agent-storage`. -/
abbrev Store := List (String × String)

def storageKey (userAddress : String) : String :=
  "agentPrivateKey-" ++ userAddress

/-- `getAgentPrivateKey`: `localStorage.getItem` on the per-address key. -/
def getAgentPrivateKey (store : Store) (userAddress : String) :
    Option String :=
  (List.find? (fun kv => kv.1 == storageKey userAddress) store).map Prod.snd

/-- `saveAgentPrivateKey`: `localStorage.setItem`, overwriting any existing
entry. -/
def saveAgentPrivateKey (store : Store) (userAddress privateKey : String) :
    Store :=
  if (List.find? (fun kv => kv.1 == storageKey userAddress) store).isSome then
    List.map (fun kv =>
      if kv.1 == storageKey userAddress then (kv.1, privateKey) else kv) store
  else store ++ [(storageKey userAddress, privateKey)]

/-- `getOrCreateAgentPrivateKey(userAddress)`: fetch-or-create. `gen` is the
fresh private key `generateAgentWallet()` would produce on this call, made
an explicit parameter because generation is random. -/
def getOrCreateAgentPrivateKey (gen : String) (store : Store)
    (userAddress : String) : String × Store :=
  match getAgentPrivateKey store userAddress with
  | some k => (k, store)
  | none => (gen, saveAgentPrivateKey store userAddress gen)

/-! ## Helper lemmas -/

/-- Unfolding of `verifySignature` when the nonce pattern has no match. -/
theorem verifySignature_of_extract_none
    (recover : String → String → Option String) (now : Int) (m s : String)
    (h : extractNonce m = none) :
    verifySignature recover now m s =
      ⟨false, none, some "Message missing nonce"⟩ := by
  unfold verifySignature
  rw [h]

/-- Unfolding of `verifySignature` when the nonce pattern matched `n`. -/
theorem verifySignature_of_extract_some
    (recover : String → String → Option String) (now : Int) (m s : String)
    (n : Nat) (h : extractNonce m = some n) :
    verifySignature recover now m s =
      (if now - (n : Int) > 60000 then
        ⟨false, none, some "Signature expired"⟩
      else if now - (n : Int) < -5000 then
        ⟨false, none, some "Invalid nonce timestamp"⟩
      else
        match recover m s with
        | some addr => ⟨true, some addr, none⟩
        | none => ⟨false, none, some "Signature verification failed"⟩) := by
  unfold verifySignature
  rw [h]
  rfl

/-- `findNonce` returns exactly the value of the leftmost position at which
the regex `Nonce:\s*(\d+)` matches. -/
theorem findNonce_eq_some_iff (n : Nat) :
    ∀ l : List Char, findNonce l = some n ↔
      ∃ i, nonceAt (l.drop i) = some n ∧
        ∀ j, j < i → nonceAt (l.drop j) = none
  | [] => by
    constructor
    · intro h
      simp [findNonce] at h
    · rintro ⟨i, hi, -⟩
      rw [List.drop_nil, show nonceAt [] = none from rfl] at hi
      exact absurd hi (by simp)
  | c :: cs => by
    rw [show findNonce (c :: cs) =
        (match nonceAt (c :: cs) with
         | some n => some n
         | none => findNonce cs) from rfl]
    cases hhead : nonceAt (c :: cs) with
    | some m =>
      constructor
      · intro h
        refine ⟨0, ?_, ?_⟩
        · rw [List.drop_zero, hhead]
          simpa using h
        · intro j hj
          omega
      · rintro ⟨i, hi, hmin⟩
        cases i with
        | zero =>
          rw [List.drop_zero, hhead] at hi
          simpa using hi
        | succ i =>
          have h0 := hmin 0 (Nat.succ_pos i)
          rw [List.drop_zero, hhead] at h0
          exact absurd h0 (by simp)
    | none =>
      rw [findNonce_eq_some_iff n cs]
      constructor
      · rintro ⟨i, hi, hmin⟩
        refine ⟨i + 1, ?_, ?_⟩
        · rwa [List.drop_succ_cons]
        · intro j hj
          cases j with
          | zero => rwa [List.drop_zero]
          | succ j =>
            rw [List.drop_succ_cons]
            exact hmin j (by omega)
      · rintro ⟨i, hi, hmin⟩
        cases i with
        | zero =>
          rw [List.drop_zero, hhead] at hi
          exact absurd hi (by simp)
        | succ i =>
          rw [List.drop_succ_cons] at hi
          refine ⟨i, hi, ?_⟩
          intro j hj
          have := hmin (j + 1) (by omega)
          rwa [List.drop_succ_cons] at this

/-- After saving a key for an address that had none, a lookup finds it. -/
theorem getAgentPrivateKey_save_self (store : Store) (addr pk : String)
    (h : getAgentPrivateKey store addr = none) :
    getAgentPrivateKey (saveAgentPrivateKey store addr pk) addr = some pk := by
  have hf : List.find? (fun kv => kv.1 == storageKey addr) store = none := by
    unfold getAgentPrivateKey at h
    cases hx : List.find? (fun kv => kv.1 == storageKey addr) store with
    | none => rfl
    | some kv =>
      rw [hx] at h
      simp at h
  unfold saveAgentPrivateKey
  rw [hf]
  simp only [Option.isSome_none, Bool.false_eq_true, if_false]
  unfold getAgentPrivateKey
  rw [List.find?_append, hf]
  simp

/-! ## Claim theorems -/

/-- C1: the spec requires `cancelled` to be terminal, but the code's
`updateSIPStatus` (service layer delegating to the database layer)
unconditionally overwrites status: on a store holding plan `p1` in status
`cancelled`, a transition request to `active` returns success and leaves
the plan `active`, contradicting the required rejection. -/
theorem C1_cancelled_transition_accepted :
    updateSIPStatusService false
        ⟨[⟨"u1", "0xAAA", "t0"⟩],
         [⟨"p1", "u1", "BTC", 3, 1500, .cancelled, "t0", "t0"⟩]⟩
        "p1" .active "t1" =
      (⟨true, none, some "SIP resumed", none⟩,
        ⟨[⟨"u1", "0xAAA", "t0"⟩],
         [⟨"p1", "u1", "BTC", 3, 1500, .active, "t0", "t1"⟩]⟩) := by
  decide

/-- C2 counterexample: the regex `Nonce:\s*(\d+)` is unanchored and
`String.match` returns the first occurrence, so in a message whose second
line embeds `Nonce: 0` in a parameter value and whose final line is
`Nonce: 70000`, the extracted nonce is `0`, and at `now = 70000` the
verifier reports `Signature expired` (age 70000) even though the final
line's nonce would give age 0 — refuting "the nonce used is the integer on
the final line, regardless of earlier matches". -/
theorem C2_counterexample_first_match_wins :
    extractNonce "Update SIP\nnote: Nonce: 0, status: paused\nNonce: 70000" =
      some 0
    ∧ verifySignature (fun _ _ => some "0xRecovered") 70000
        "Update SIP\nnote: Nonce: 0, status: paused\nNonce: 70000" "0xsig" =
      ⟨false, none, some "Signature expired"⟩ := by
  constructor
  · decide
  · decide

/-- C2 amended: `verifySignature` fails with the missing-nonce error
exactly when the message contains no match of `Nonce:\s*(\d+)` anywhere,
and the nonce it uses is the value at the leftmost matching position of
the message — not the final line's occurrence. -/
theorem C2_nonce_extraction_first_match :
    (∀ (recover : String → String → Option String) (now : Int)
        (m s : String),
      (verifySignature recover now m s).error = some "Message missing nonce"
        ↔ extractNonce m = none)
    ∧ (∀ (m : String) (n : Nat),
      extractNonce m = some n ↔
        ∃ i, nonceAt (m.data.drop i) = some n ∧
          ∀ j, j < i → nonceAt (m.data.drop j) = none) := by
  constructor
  · intro recover now m s
    cases h : extractNonce m with
    | none =>
      rw [verifySignature_of_extract_none recover now m s h]
      simp
    | some nonce =>
      rw [verifySignature_of_extract_some recover now m s nonce h]
      refine iff_of_false (fun habs => ?_) (by simp)
      revert habs
      split
      · intro habs
        exact absurd habs (by decide)
      · split
        · intro habs
          exact absurd habs (by decide)
        · cases recover m s with
          | some addr =>
            intro habs
            exact absurd habs (by simp)
          | none =>
            intro habs
            exact absurd habs (by decide)
  · intro m n
    exact findNonce_eq_some_iff n m.data

/-- C2 amended, concrete instance: a message with no nonce line is
rejected with the missing-nonce error. -/
theorem C2_nonce_extraction_first_match_witness :
    (verifySignature (fun _ _ => some "0xRecovered") 0 "hello" "0xsig").error
      = some "Message missing nonce" :=
  (C2_nonce_extraction_first_match.1 (fun _ _ => some "0xRecovered") 0
    "hello" "0xsig").mpr (by decide)

/-- C5 counterexample: with `alreadyApproved = false` and a `null` exchange
client, `approveAgentIfNeeded` throws `Exchange client not initialized`
(the throw sits outside the `try/catch`), refuting "it never throws, for
any state of the exchange client". -/
theorem C5_counterexample_missing_client_throws :
    approveAgentIfNeeded none "0xAgent" false =
      .error "Exchange client not initialized" := rfl

/-- C5 amended: `approveAgentIfNeeded` is a no-op when `alreadyApproved`
is true; when the exchange client is present, a failure of the approval
call is downgraded to a warning and the procedure returns normally — but
with a missing exchange client and `alreadyApproved` false it throws. -/
theorem C5_approve_agent_amended (ec : Option ExchangeClient)
    (addr : String) :
    (approveAgentIfNeeded ec addr true = .ok .skippedAlreadyApproved)
    ∧ (∀ c : ExchangeClient,
        ∃ o, approveAgentIfNeeded (some c) addr false = .ok o)
    ∧ (∀ (c : ExchangeClient) (e : String),
        c.approveAgent addr "EzDawg Agent" = .error e →
        approveAgentIfNeeded (some c) addr false = .ok .warnedFailure) := by
  refine ⟨rfl, ?_, ?_⟩
  · intro c
    unfold approveAgentIfNeeded
    cases h : c.approveAgent addr "EzDawg Agent" with
    | ok u => exact ⟨.approvedOk, by simp [h]⟩
    | error e => exact ⟨.warnedFailure, by simp [h]⟩
  · intro c e h
    unfold approveAgentIfNeeded
    simp [h]

/-- C5 amended, concrete instance: an approval call that throws is
swallowed and surfaced as the warned-failure outcome. -/
theorem C5_approve_agent_amended_witness :
    approveAgentIfNeeded (some ⟨fun _ _ => .error "rpc failure"⟩)
      "0xAgent" false = .ok .warnedFailure :=
  (C5_approve_agent_amended (some ⟨fun _ _ => .error "rpc failure"⟩)
    "0xAgent").2.2 ⟨fun _ _ => .error "rpc failure"⟩ "rpc failure" rfl

/-- C3: with extracted nonce `n`, `verifySignature` rejects with
`Signature expired` whenever `now - n > 60000`, and at the boundary
`now - n = 60000` exactly it is not rejected for expiry (the strict `>`
lets the boundary through to the remaining checks). -/
theorem C3_expiry_window (recover : String → String → Option String)
    (now : Int) (m s : String) (n : Nat) (h : extractNonce m = some n) :
    (now - (n : Int) > 60000 →
      verifySignature recover now m s =
        ⟨false, none, some "Signature expired"⟩)
    ∧ (now - (n : Int) = 60000 →
      (verifySignature recover now m s).error ≠ some "Signature expired") := by
  rw [verifySignature_of_extract_some recover now m s n h]
  constructor
  · intro hgt
    rw [if_pos hgt]
  · intro heq
    rw [if_neg (by omega), if_neg (by omega)]
    cases recover m s with
    | some addr => simp
    | none =>
      intro habs
      exact absurd habs (by decide)

/-- C3, concrete instance: nonce 5 at `now = 70005` (age 70000) is
rejected as expired; at `now = 60005` (age exactly 60000) it is not. -/
theorem C3_expiry_window_witness :
    verifySignature (fun _ _ => some "0xR") 70005 "Create SIP\nNonce: 5"
        "0xsig" = ⟨false, none, some "Signature expired"⟩
    ∧ (verifySignature (fun _ _ => some "0xR") 60005 "Create SIP\nNonce: 5"
        "0xsig").error ≠ some "Signature expired" :=
  ⟨(C3_expiry_window (fun _ _ => some "0xR") 70005 "Create SIP\nNonce: 5"
      "0xsig" 5 (by decide)).1 (by decide),
   (C3_expiry_window (fun _ _ => some "0xR") 60005 "Create SIP\nNonce: 5"
      "0xsig" 5 (by decide)).2 (by decide)⟩

/-- C4: with extracted nonce `n`, `verifySignature` rejects with the
future-nonce error (`Invalid nonce timestamp`) whenever
`now - n < -5000`, and a nonce 4999 ms ahead (`now - n = -4999`) passes
both freshness checks, the outcome then being decided by address
recovery alone. The model preserves the code's check order (expiry first,
then the future-nonce check). -/
theorem C4_future_nonce_window (recover : String → String → Option String)
    (now : Int) (m s : String) (n : Nat) (h : extractNonce m = some n) :
    (now - (n : Int) < -5000 →
      verifySignature recover now m s =
        ⟨false, none, some "Invalid nonce timestamp"⟩)
    ∧ (now - (n : Int) = -4999 →
      verifySignature recover now m s =
        (match recover m s with
         | some addr => ⟨true, some addr, none⟩
         | none => ⟨false, none, some "Signature verification failed"⟩)) := by
  rw [verifySignature_of_extract_some recover now m s n h]
  constructor
  · intro hlt
    rw [if_neg (by omega), if_pos hlt]
  · intro heq
    rw [if_neg (by omega), if_neg (by omega)]

/-- C4, concrete instance: nonce 10000 at `now = 4999` (5001 ms ahead) is
rejected; at `now = 5001` (4999 ms ahead) it passes the freshness checks
and verification succeeds on the recovered address. -/
theorem C4_future_nonce_window_witness :
    verifySignature (fun _ _ => some "0xR") 4999 "Create SIP\nNonce: 10000"
        "0xsig" = ⟨false, none, some "Invalid nonce timestamp"⟩
    ∧ verifySignature (fun _ _ => some "0xR") 5001 "Create SIP\nNonce: 10000"
        "0xsig" = ⟨true, some "0xR", none⟩ :=
  ⟨(C4_future_nonce_window (fun _ _ => some "0xR") 4999
      "Create SIP\nNonce: 10000" "0xsig" 10000 (by decide)).1 (by decide),
   (C4_future_nonce_window (fun _ _ => some "0xR") 5001
      "Create SIP\nNonce: 10000" "0xsig" 10000 (by decide)).2 (by decide)⟩

/-- C10: `verifySignature` is total by construction (it is a Lean
function returning a `VerifySignatureResult` on every input); a result
with `valid = true` always carries a recovered address, and when address
recovery throws on a fresh message the `catch` converts it to the
`valid = false` verification-failed result. -/
theorem C10_verify_signature_total
    (recover : String → String → Option String) (now : Int) (m s : String) :
    ((verifySignature recover now m s).valid = true →
      ∃ a, (verifySignature recover now m s).address = some a)
    ∧ (∀ n : Nat, extractNonce m = some n →
        ¬ now - (n : Int) > 60000 → ¬ now - (n : Int) < -5000 →
        recover m s = none →
        verifySignature recover now m s =
          ⟨false, none, some "Signature verification failed"⟩) := by
  constructor
  · intro hvalid
    cases h : extractNonce m with
    | none =>
      rw [verifySignature_of_extract_none recover now m s h] at hvalid
      exact absurd hvalid (by decide)
    | some n =>
      rw [verifySignature_of_extract_some recover now m s n h] at hvalid ⊢
      revert hvalid
      split
      · intro hvalid
        exact absurd hvalid (by decide)
      · split
        · intro hvalid
          exact absurd hvalid (by decide)
        · cases recover m s with
          | some addr => exact fun _ => ⟨addr, rfl⟩
          | none => intro hvalid; exact absurd hvalid (by decide)
  · intro n h hexp hfut hrec
    rw [verifySignature_of_extract_some recover now m s n h,
      if_neg hexp, if_neg hfut, hrec]

/-- C10, concrete instances: a successful recovery yields a result whose
`valid` flag is accompanied by the recovered address, and a throwing
recovery on a fresh message yields the caught verification-failed
result. -/
theorem C10_verify_signature_total_witness :
    (∃ a, (verifySignature (fun _ _ => some "0xR") 0 "Create SIP\nNonce: 0"
        "0xsig").address = some a)
    ∧ verifySignature (fun _ _ => none) 0 "Create SIP\nNonce: 0" "0xsig" =
        ⟨false, none, some "Signature verification failed"⟩ :=
  ⟨(C10_verify_signature_total (fun _ _ => some "0xR") 0
      "Create SIP\nNonce: 0" "0xsig").1 (by decide),
   (C10_verify_signature_total (fun _ _ => none) 0
      "Create SIP\nNonce: 0" "0xsig").2 0 (by decide) (by decide)
      (by decide) rfl⟩

/-- C7: `createSIP` rejects any amount below 1000 with the below-minimum
error, leaving the store untouched; with amount exactly 1000 and no
user-resolution or persistence failure it succeeds and the created record
has status `active`. -/
theorem C7_create_sip_minimum (failUser failInsert : Bool) (db : DB)
    (p : CreateSIPParams) (nowTs : String) :
    (p.monthlyAmountUsdc < 1000 →
      createSIPService failUser failInsert db p nowTs =
        (⟨false, none, none,
          some "Monthly investment must be at least 1000 USDC"⟩, db))
    ∧ (p.monthlyAmountUsdc = 1000 →
      ∃ s : SIP, (createSIPService false false db p nowTs).1 =
          ⟨true, some s, some "SIP created successfully", none⟩
        ∧ s.status = .active) := by
  constructor
  · intro hlt
    unfold createSIPService
    rw [if_pos hlt]
  · intro heq
    have hge : ¬ p.monthlyAmountUsdc < 1000 := by omega
    cases hf : db.users.find?
        (fun u => u.wallet_address == p.walletAddress) with
    | some u =>
      exact ⟨⟨"sip-" ++ toString db.sips.length, u.id, p.assetName,
        p.assetIndex, p.monthlyAmountUsdc, .active, nowTs, nowTs⟩,
        by simp [createSIPService, getUserByWallet, dbCreateSIP, hf, hge],
        rfl⟩
    | none =>
      exact ⟨⟨"sip-" ++ toString db.sips.length, "user-" ++ p.walletAddress,
        p.assetName, p.assetIndex, p.monthlyAmountUsdc, .active, nowTs,
        nowTs⟩,
        by simp [createSIPService, getUserByWallet, dbCreateSIP, hf, hge],
        rfl⟩

/-- C7, concrete instances: amount 999 is rejected below-minimum with the
store unchanged, and amount 1000 succeeds with an `active` record. -/
theorem C7_create_sip_minimum_witness :
    createSIPService false false ⟨[], []⟩ ⟨"0xAAA", "BTC", 3, 999⟩ "t0" =
      (⟨false, none, none,
        some "Monthly investment must be at least 1000 USDC"⟩, ⟨[], []⟩)
    ∧ ∃ s : SIP,
        (createSIPService false false ⟨[], []⟩ ⟨"0xAAA", "BTC", 3, 1000⟩
          "t0").1 = ⟨true, some s, some "SIP created successfully", none⟩
        ∧ s.status = .active :=
  ⟨(C7_create_sip_minimum false false ⟨[], []⟩ ⟨"0xAAA", "BTC", 3, 999⟩
      "t0").1 (by decide),
   (C7_create_sip_minimum false false ⟨[], []⟩ ⟨"0xAAA", "BTC", 3, 1000⟩
      "t0").2 rfl⟩

/-- C8: `checkAgentApproval` returns `false` rather than raising when the
info client is absent, when the delegate query throws, and when it
returns no data; it returns `true` exactly when the query succeeds and
the agent address is a member of the returned delegate list. -/
theorem C8_check_agent_approval :
    (∀ u a, checkAgentApproval none u a = false)
    ∧ (∀ (c : InfoClient) u a e, c.extraAgents u = .error e →
        checkAgentApproval (some c) u a = false)
    ∧ (∀ (c : InfoClient) u a, c.extraAgents u = .ok none →
        checkAgentApproval (some c) u a = false)
    ∧ (∀ (ic : Option InfoClient) (u a : String),
        checkAgentApproval ic u a = true ↔
          ∃ (c : InfoClient) (l : List HlAgent), ic = some c ∧
            c.extraAgents u = .ok (some l) ∧ ∃ ag ∈ l, ag.address = a) := by
  refine ⟨fun u a => rfl, ?_, ?_, ?_⟩
  · intro c u a e h
    simp [checkAgentApproval, h]
  · intro c u a h
    simp [checkAgentApproval, h]
  · intro ic u a
    cases ic with
    | none =>
      refine iff_of_false (by simp [checkAgentApproval]) ?_
      rintro ⟨c, l, hc, -⟩
      exact absurd hc (by simp)
    | some c =>
      cases h : c.extraAgents u with
      | error e =>
        refine iff_of_false (by simp [checkAgentApproval, h]) ?_
        rintro ⟨c', l, hc, hl, -⟩
        rw [Option.some.injEq] at hc
        rw [← hc, h] at hl
        exact absurd hl (by simp)
      | ok resp =>
        cases resp with
        | none =>
          refine iff_of_false (by simp [checkAgentApproval, h]) ?_
          rintro ⟨c', l, hc, hl, -⟩
          rw [Option.some.injEq] at hc
          rw [← hc, h] at hl
          simp at hl
        | some l =>
          have hred : checkAgentApproval (some c) u a =
              (List.find? (fun ag => ag.address == a) l).isSome := by
            simp [checkAgentApproval, h]
          rw [hred, List.find?_isSome]
          constructor
          · rintro ⟨ag, hmem, hp⟩
            exact ⟨c, l, rfl, h, ag, hmem, by simpa using hp⟩
          · rintro ⟨c', l', hc, hl, ag, hmem, haddr⟩
            rw [Option.some.injEq] at hc
            rw [← hc, h] at hl
            simp only [Except.ok.injEq, Option.some.injEq] at hl
            rw [hl]
            exact ⟨ag, hmem, by simpa using haddr⟩

/-- C8, concrete instances: a missing client, a throwing query, and an
empty response all yield `false`; a delegate list containing the agent
yields `true`. -/
theorem C8_check_agent_approval_witness :
    checkAgentApproval none "0xU" "0xA" = false
    ∧ checkAgentApproval (some ⟨fun _ => .error "network down"⟩)
        "0xU" "0xA" = false
    ∧ checkAgentApproval (some ⟨fun _ => .ok none⟩) "0xU" "0xA" = false
    ∧ checkAgentApproval (some ⟨fun _ => .ok (some [⟨"0xA"⟩])⟩)
        "0xU" "0xA" = true :=
  ⟨C8_check_agent_approval.1 "0xU" "0xA",
   C8_check_agent_approval.2.1 ⟨fun _ => .error "network down"⟩
     "0xU" "0xA" "network down" rfl,
   C8_check_agent_approval.2.2.1 ⟨fun _ => .ok none⟩ "0xU" "0xA" rfl,
   (C8_check_agent_approval.2.2.2 (some ⟨fun _ => .ok (some [⟨"0xA"⟩])⟩)
     "0xU" "0xA").mpr ⟨⟨fun _ => .ok (some [⟨"0xA"⟩])⟩, [⟨"0xA"⟩], rfl, rfl,
       ⟨"0xA"⟩, by simp, rfl⟩⟩

/-- C9: `getOrCreateAgentPrivateKey` is idempotent under sequential calls
against the same key store: whatever fresh keys the generator would
produce, the second call returns the key returned (and persisted) by the
first, and leaves the store unchanged — a key once generated for an
address is never regenerated. -/
theorem C9_get_or_create_key_idempotent (gen1 gen2 : String)
    (store : Store) (addr : String) :
    (getOrCreateAgentPrivateKey gen2
        (getOrCreateAgentPrivateKey gen1 store addr).2 addr).1 =
      (getOrCreateAgentPrivateKey gen1 store addr).1
    ∧ (getOrCreateAgentPrivateKey gen2
        (getOrCreateAgentPrivateKey gen1 store addr).2 addr).2 =
      (getOrCreateAgentPrivateKey gen1 store addr).2 := by
  cases h : getAgentPrivateKey store addr with
  | some k =>
    have h1 : getOrCreateAgentPrivateKey gen1 store addr = (k, store) := by
      unfold getOrCreateAgentPrivateKey
      rw [h]
    have h2 : getOrCreateAgentPrivateKey gen2 store addr = (k, store) := by
      unfold getOrCreateAgentPrivateKey
      rw [h]
    simp [h1, h2]
  | none =>
    have hsave := getAgentPrivateKey_save_self store addr gen1 h
    have h1 : getOrCreateAgentPrivateKey gen1 store addr =
        (gen1, saveAgentPrivateKey store addr gen1) := by
      unfold getOrCreateAgentPrivateKey
      rw [h]
    have h2 : getOrCreateAgentPrivateKey gen2
        (saveAgentPrivateKey store addr gen1) addr =
        (gen1, saveAgentPrivateKey store addr gen1) := by
      unfold getOrCreateAgentPrivateKey
      rw [hsave]
    simp [h1, h2]

/-- Unfolding of `PATCH` once the field-presence check passes. -/
theorem PATCH_unfold (recover : String → String → Option String)
    (now : Int) (dbFail : Bool) (db : DB) (nowTs : String) (b : PatchBody)
    (st : SIPStatus) (hs : b.status = some st) (hid : b.sipId ≠ "")
    (hm : b.message ≠ "") (hsig : b.signature ≠ "") :
    PATCH recover now dbFail db b nowTs =
      (let vr := verifySignature recover now b.message b.signature
       if vr.valid then
         match updateSIPStatusService dbFail db b.sipId st nowTs with
         | (r, db1) =>
           if r.success then (.ok r, db1)
           else (.serverError (r.error.getD ""), db1)
       else (.unauthorized (vr.error.getD "Invalid signature"), db)) := by
  have hcond : ¬ (b.sipId = "" ∨ b.message = "" ∨ b.signature = "") := by
    simp [hid, hm, hsig]
  unfold PATCH
  rw [hs]
  simp only [if_neg hcond]

/-- With no injected database error, the service-level status update
always reports success with the interpolated message, and the store is
the database-level overwrite. -/
theorem updateSIPStatusService_ok (db : DB) (sipId : String)
    (st : SIPStatus) (nowTs : String) :
    updateSIPStatusService false db sipId st nowTs =
      (⟨true, none, some ("SIP " ++ statusWord st), none⟩,
        (dbUpdateSIPStatus false db sipId st nowTs).2) := rfl

/-- C6: the PATCH handler never compares the parameters inside the signed
message against the request body. For two well-formed bodies carrying the
same `(message, signature)` pair but arbitrary `sipId` and `status`,
authentication fails identically (same 401, store untouched) or succeeds
identically, and on success each run applies its own body's `sipId` and
`status` to the store — one fresh signature authorizes mutating any plan
id to any status. -/
theorem C6_patch_ignores_signed_params
    (recover : String → String → Option String) (now : Int) (dbFail : Bool)
    (db : DB) (nowTs : String) (b1 b2 : PatchBody) (s1 s2 : SIPStatus)
    (hs1 : b1.status = some s1) (hs2 : b2.status = some s2)
    (hid1 : b1.sipId ≠ "") (hid2 : b2.sipId ≠ "")
    (hm1 : b1.message ≠ "") (hsig1 : b1.signature ≠ "")
    (hm : b2.message = b1.message) (hsig : b2.signature = b1.signature) :
    ((verifySignature recover now b1.message b1.signature).valid = false →
      PATCH recover now dbFail db b1 nowTs =
        (.unauthorized ((verifySignature recover now b1.message
            b1.signature).error.getD "Invalid signature"), db)
      ∧ PATCH recover now dbFail db b2 nowTs =
        (.unauthorized ((verifySignature recover now b1.message
            b1.signature).error.getD "Invalid signature"), db))
    ∧ ((verifySignature recover now b1.message b1.signature).valid = true →
      PATCH recover now false db b1 nowTs =
        (.ok ⟨true, none, some ("SIP " ++ statusWord s1), none⟩,
          (dbUpdateSIPStatus false db b1.sipId s1 nowTs).2)
      ∧ PATCH recover now false db b2 nowTs =
        (.ok ⟨true, none, some ("SIP " ++ statusWord s2), none⟩,
          (dbUpdateSIPStatus false db b2.sipId s2 nowTs).2)) := by
  have hm2 : b2.message ≠ "" := by
    rw [hm]
    exact hm1
  have hsig2 : b2.signature ≠ "" := by
    rw [hsig]
    exact hsig1
  constructor
  · intro hinvalid
    constructor
    · rw [PATCH_unfold recover now dbFail db nowTs b1 s1 hs1 hid1 hm1 hsig1]
      simp [hinvalid]
    · rw [PATCH_unfold recover now dbFail db nowTs b2 s2 hs2 hid2 hm2 hsig2,
        hm, hsig]
      simp [hinvalid]
  · intro hvalid
    constructor
    · rw [PATCH_unfold recover now false db nowTs b1 s1 hs1 hid1 hm1 hsig1]
      simp [hvalid, updateSIPStatusService_ok]
    · rw [PATCH_unfold recover now false db nowTs b2 s2 hs2 hid2 hm2 hsig2,
        hm, hsig]
      simp [hvalid, updateSIPStatusService_ok]

/-- C6, concrete instance: one fresh signature over a message naming
`sipId: p1, status: paused` authorizes both pausing `p1` and cancelling an
unrelated id `p2`, each run applying its own body's fields. -/
theorem C6_patch_ignores_signed_params_witness :
    PATCH (fun _ _ => some "0xUser") 0 false
        ⟨[⟨"u1", "0xUser", "t0"⟩],
         [⟨"p1", "u1", "BTC", 3, 1500, .active, "t0", "t0"⟩]⟩
        ⟨"p1", some .paused,
          "Update SIP\nsipId: p1, status: paused\nNonce: 0", "0xsig"⟩ "t1" =
      (.ok ⟨true, none, some "SIP paused", none⟩,
        ⟨[⟨"u1", "0xUser", "t0"⟩],
         [⟨"p1", "u1", "BTC", 3, 1500, .paused, "t0", "t1"⟩]⟩)
    ∧ PATCH (fun _ _ => some "0xUser") 0 false
        ⟨[⟨"u1", "0xUser", "t0"⟩],
         [⟨"p1", "u1", "BTC", 3, 1500, .active, "t0", "t0"⟩]⟩
        ⟨"p2", some .cancelled,
          "Update SIP\nsipId: p1, status: paused\nNonce: 0", "0xsig"⟩ "t1" =
      (.ok ⟨true, none, some "SIP cancelled", none⟩,
        ⟨[⟨"u1", "0xUser", "t0"⟩],
         [⟨"p1", "u1", "BTC", 3, 1500, .active, "t0", "t0"⟩]⟩) := by
  have h := C6_patch_ignores_signed_params (fun _ _ => some "0xUser") 0
    false
    ⟨[⟨"u1", "0xUser", "t0"⟩],
     [⟨"p1", "u1", "BTC", 3, 1500, .active, "t0", "t0"⟩]⟩ "t1"
    ⟨"p1", some .paused,
      "Update SIP\nsipId: p1, status: paused\nNonce: 0", "0xsig"⟩
    ⟨"p2", some .cancelled,
      "Update SIP\nsipId: p1, status: paused\nNonce: 0", "0xsig"⟩
    .paused .cancelled rfl rfl (by decide) (by decide) (by decide)
    (by decide) rfl rfl
  have h2 := h.2 (by decide)
  exact ⟨h2.1.trans (by decide), h2.2.trans (by decide)⟩

end EzDawg
